import Mathlib

/-!
Verification of `src/google/auth/api_key.py` (Google API key credentials).

The module defines one class, `Credentials`, holding a fixed API key string,
and a discovery helper `get_api_key_credentials`.  The embedding below is a
direct translation:

* A Python `dict` of headers is an association list of string pairs with
  unique keys; `headers[k] = v` updates the entry in place when the key is
  present and appends it otherwise (`setItem`), and reading a key returns the
  first (hence only) matching value (`getItem`).
* `None`-able strings are `Option String`; Python falsiness of a string
  (`not token` true for `None` and `""`) appears as explicit matches on
  `none` and `= ""` tests.
* Raising `ValueError` becomes `Except String`.
* Methods that mutate state in Python return the post-state explicitly:
  `refresh` returns the (unchanged) credential, `apply` and `before_request`
  return the credential paired with the updated header mapping.
-/

namespace ApiKey

/-- Header mappings: a Python `dict` of strings as an association list. -/
abbrev Headers := List (String × String)

/-- Python dict read `h[k]` (as an `Option`): value of the first entry whose
key is `k`. -/
def getItem : Headers → String → Option String
  | [], _ => none
  | p :: rest, k => if p.1 = k then some p.2 else getItem rest k

/-- Python dict write `h[k] = v`: replace the first entry whose key is `k`
in place, or append `(k, v)` when no entry has key `k`. -/
def setItem : Headers → String → String → Headers
  | [], k, v => [(k, v)]
  | p :: rest, k, v => if p.1 = k then (k, v) :: rest else p :: setItem rest k v

/-- Python `a or b` for an optional string `a`: `b` when `a` is falsy
(`None` or empty), else `a`. Models `api_key_string or os.environ.get(...)`
in `get_api_key_credentials`. -/
def pyOrOpt (a b : Option String) : Option String :=
  match a with
  | none => b
  | some s => if s = "" then b else some s

/-- Python `a or b` where `a` is an optional string and `b` a string:
models `token or self.token` in `Credentials.apply`. -/
def pyOrStr (a : Option String) (b : String) : String :=
  match a with
  | none => b
  | some s => if s = "" then b else s

/-- Modelled from the spec: the constant `google.auth.environment_vars.API_KEY`
is imported by the module but its defining file is not part of the provided
sources; the spec names the environment variable `GOOGLE_API_KEY`. -/
def API_KEY : String := "GOOGLE_API_KEY"

/-- API key credentials: hold the API key string stored by the constructor. -/
structure Credentials where
  token : String
  deriving DecidableEq, Repr

/-- Constructor `Credentials.__init__(token)`: `if not token: raise
ValueError("Token must be a non-empty API key string")`, else store the
token.  The argument is an optional string so that Python `None` is
representable; `not token` is true exactly for `None` and `""`. -/
def Credentials.init (token : Option String) : Except String Credentials :=
  match token with
  | none => Except.error "Token must be a non-empty API key string"
  | some s =>
    if s = "" then Except.error "Token must be a non-empty API key string"
    else Except.ok { token := s }

/-- Property `expired`: `return False`. -/
def Credentials.expired (_c : Credentials) : Bool := false

/-- Property `valid`: `return True`. -/
def Credentials.valid (_c : Credentials) : Bool := true

/-- Method `refresh(self, request)`: `return` — the post-state of the
credential is the pre-state, for any request object of any type. -/
def Credentials.refresh {α : Type} (c : Credentials) (_request : α) : Credentials := c

/-- Method `apply(self, headers, token=None)`:
`headers["x-goog-api-key"] = token or self.token`.  Returns the post-state
of the credential (unchanged) and of the header mapping. -/
def Credentials.apply (c : Credentials) (headers : Headers) (token : Option String) :
    Credentials × Headers :=
  (c, setItem headers "x-goog-api-key" (pyOrStr token c.token))

/-- Method `before_request(self, request, method, url, headers)`:
`self.apply(headers)` — the request, method and url arguments are unused. -/
def Credentials.before_request {α : Type} (c : Credentials) (_request : α)
    (_method _url : String) (headers : Headers) : Credentials × Headers :=
  c.apply headers none

/-- One call on a credential, for tracking the credential state across a
sequence of operations: the per-call arguments (request object, headers,
override token, method, url) are carried in the operation. -/
inductive Op (α : Type) where
  | refreshOp (request : α)
  | applyOp (headers : Headers) (token : Option String)
  | beforeRequestOp (request : α) (method url : String) (headers : Headers)

/-- Credential post-state after one operation. -/
def Credentials.step {α : Type} (c : Credentials) : Op α → Credentials
  | Op.refreshOp r => c.refresh r
  | Op.applyOp h t => (c.apply h t).1
  | Op.beforeRequestOp r m u h => (c.before_request r m u h).1

/-- Credential post-state after a sequence of operations. -/
def Credentials.runOps {α : Type} (c : Credentials) (ops : List (Op α)) : Credentials :=
  ops.foldl Credentials.step c

/-- Function `get_api_key_credentials(api_key_string=None)`:
`api_key_to_use = api_key_string or os.environ.get(environment_vars.API_KEY)`
then `return Credentials(api_key_to_use) if api_key_to_use else None`.
The environment is passed explicitly as a lookup function (`os.environ.get`
returns `None` for an unset variable).  The result is in `Except` because
the constructor called on the truthy branch can in principle raise. -/
def get_api_key_credentials (env : String → Option String)
    (api_key_string : Option String) : Except String (Option Credentials) :=
  match pyOrOpt api_key_string (env API_KEY) with
  | none => Except.ok none
  | some s =>
    if s = "" then Except.ok none
    else (Credentials.init (some s)).map Option.some

/-! ### Association-list lemmas for header mappings -/

theorem getItem_setItem_self (h : Headers) (k v : String) :
    getItem (setItem h k v) k = some v := by
  induction h with
  | nil => simp [setItem, getItem]
  | cons p rest ih =>
    by_cases hp : p.1 = k
    · simp [setItem, hp, getItem]
    · simp [setItem, hp, getItem, ih]

theorem getItem_setItem_ne (h : Headers) (k k' v : String) (hk : k' ≠ k) :
    getItem (setItem h k v) k' = getItem h k' := by
  induction h with
  | nil => simp [setItem, getItem, Ne.symm hk]
  | cons p rest ih =>
    by_cases hp : p.1 = k
    · simp [setItem, hp, getItem, Ne.symm hk, ih]
    · simp [setItem, hp, getItem, ih]

theorem setItem_idem (h : Headers) (k v : String) :
    setItem (setItem h k v) k v = setItem h k v := by
  induction h with
  | nil => simp [setItem]
  | cons p rest ih =>
    by_cases hp : p.1 = k
    · simp [setItem, hp]
    · simp [setItem, hp, ih]

theorem step_token {α : Type} (c : Credentials) (op : Op α) :
    (Credentials.step c op).token = c.token := by
  cases op <;> rfl

theorem runOps_token {α : Type} (c : Credentials) (ops : List (Op α)) :
    (Credentials.runOps c ops).token = c.token := by
  induction ops generalizing c with
  | nil => rfl
  | cons op rest ih =>
    show (Credentials.runOps (Credentials.step c op) rest).token = c.token
    rw [ih, step_token]

/-! ### Claims -/

/-- C1: for every credential with stored token `t`, header mapping `h` and
optional override `o`, `apply(h, o)` writes exactly one entry into `h`,
under key `"x-goog-api-key"`, whose value is `o` if `o` is provided and
non-empty and `t` otherwise; any pre-existing value under that key is
overwritten and every other key keeps its previous value. -/
theorem apply_writes_single_header (c : Credentials) (h : Headers) (o : Option String) :
    getItem (c.apply h o).2 "x-goog-api-key" =
      some (match o with
            | none => c.token
            | some s => if s = "" then c.token else s) ∧
    ∀ k, k ≠ "x-goog-api-key" → getItem (c.apply h o).2 k = getItem h k := by
  constructor
  · show getItem (setItem h "x-goog-api-key" (pyOrStr o c.token)) "x-goog-api-key" = _
    rw [getItem_setItem_self]
    cases o <;> rfl
  · intro k hk
    exact getItem_setItem_ne h "x-goog-api-key" k (pyOrStr o c.token) hk

/-- Witness for C1 at a concrete input: on a credential with token `"ABC"`,
applying with override `"NEW"` to a mapping holding a stale value and an
unrelated key leaves the unrelated key unchanged. -/
theorem apply_writes_single_header_witness :
    getItem ((Credentials.mk "ABC").apply
        [("x-goog-api-key", "OLD"), ("other", "X")] (some "NEW")).2 "other" =
      getItem [("x-goog-api-key", "OLD"), ("other", "X")] "other" :=
  (apply_writes_single_header (Credentials.mk "ABC")
    [("x-goog-api-key", "OLD"), ("other", "X")] (some "NEW")).2 "other" (by decide)

/-- C2: construction raises `ValueError` if and only if the supplied token is
empty or absent; for every non-empty string token construction succeeds and
stores that token. -/
theorem init_error_iff_empty (t : Option String) :
    ((∃ e, Credentials.init t = Except.error e) ↔ (t = none ∨ t = some "")) ∧
    (∀ s, t = some s → s ≠ "" → Credentials.init t = Except.ok (Credentials.mk s)) := by
  constructor
  · constructor
    · intro he
      match t with
      | none => exact Or.inl rfl
      | some s =>
        by_cases hs : s = ""
        · exact Or.inr (hs ▸ rfl)
        · rcases he with ⟨e, he⟩
          simp [Credentials.init, hs] at he
    · rintro (rfl | rfl) <;> exact ⟨"Token must be a non-empty API key string", rfl⟩
  · rintro s rfl hs
    simp [Credentials.init, hs]

/-- Witness for C2 at a concrete input: constructing with `"k1"` succeeds
and stores `"k1"`. -/
theorem init_error_iff_empty_witness :
    Credentials.init (some "k1") = Except.ok (Credentials.mk "k1") :=
  (init_error_iff_empty (some "k1")).2 "k1" rfl (by decide)

/-- C3: `get_api_key_credentials e` returns a credential with token `e`
whenever `e` is non-empty, regardless of the environment; when `e` is absent
or empty it returns a credential with the value of `GOOGLE_API_KEY` if that
variable is set and non-empty; when both are absent or empty it returns
`None` rather than raising. -/
theorem get_api_key_credentials_resolution (env : String → Option String)
    (e : Option String) :
    (∀ s, e = some s → s ≠ "" →
        get_api_key_credentials env e = Except.ok (some (Credentials.mk s))) ∧
    ((e = none ∨ e = some "") → ∀ s, env API_KEY = some s → s ≠ "" →
        get_api_key_credentials env e = Except.ok (some (Credentials.mk s))) ∧
    ((e = none ∨ e = some "") → (env API_KEY = none ∨ env API_KEY = some "") →
        get_api_key_credentials env e = Except.ok none) := by
  refine ⟨?_, ?_, ?_⟩
  · rintro s rfl hs
    simp [get_api_key_credentials, pyOrOpt, Credentials.init, hs, Except.map]
  · rintro (rfl | rfl) s henv hs <;>
      simp [get_api_key_credentials, pyOrOpt, Credentials.init, henv, hs, Except.map]
  · rintro (rfl | rfl) (henv | henv) <;>
      simp [get_api_key_credentials, pyOrOpt, henv]

/-- Witness for C3 at a concrete input: with no explicit key and the
environment variable set to `"envkey"`, the helper returns a credential
with token `"envkey"`. -/
theorem get_api_key_credentials_resolution_witness :
    get_api_key_credentials (fun _ => some "envkey") none =
      Except.ok (some (Credentials.mk "envkey")) :=
  (get_api_key_credentials_resolution (fun _ => some "envkey") none).2.1
    (Or.inl rfl) "envkey" rfl (by decide)

/-- C4: for every credential, `expired` is `False` and `valid` is `True`,
also after any number of calls to `refresh`, `apply` or `before_request`. -/
theorem expired_false_valid_true {α : Type} (c : Credentials) (ops : List (Op α)) :
    (Credentials.runOps c ops).expired = false ∧
    (Credentials.runOps c ops).valid = true :=
  ⟨rfl, rfl⟩

/-- C5: `refresh` is total (it is a plain function, so it cannot raise) and
leaves the observable state unchanged: the credential, hence its `token`,
`expired` and `valid`, is the same after the call as before, for every
request context. -/
theorem refresh_is_noop {α : Type} (c : Credentials) (r : α) :
    c.refresh r = c ∧
    (c.refresh r).token = c.token ∧
    (c.refresh r).expired = c.expired ∧
    (c.refresh r).valid = c.valid :=
  ⟨rfl, rfl, rfl, rfl⟩

/-- C6: `before_request(request, method, url, h)` produces exactly the final
header mapping of `refresh(request)` followed by `apply(h)` with no
override. -/
theorem before_request_eq_refresh_then_apply {α : Type} (c : Credentials)
    (r : α) (m u : String) (h : Headers) :
    (c.before_request r m u h).2 = ((c.refresh r).apply h none).2 :=
  rfl

/-- C7: `get_api_key_credentials` never raises: for every explicit argument
and every environment state the result is `Except.ok`, because whenever the
constructor is reached the key passed to it is non-empty. -/
theorem get_api_key_credentials_never_raises (env : String → Option String)
    (e : Option String) :
    ∃ r, get_api_key_credentials env e = Except.ok r := by
  unfold get_api_key_credentials
  rcases hx : pyOrOpt e (env API_KEY) with _ | s
  · exact ⟨none, rfl⟩
  · by_cases hs : s = ""
    · exact ⟨none, by simp [hs]⟩
    · exact ⟨some (Credentials.mk s), by simp [Credentials.init, hs, Except.map]⟩

/-- C8: after successful construction the stored token is non-empty, and
every operation (`refresh`, `apply` with or without override,
`before_request`, in any sequence) preserves the stored token; the override
in `apply` affects only the headers, never the credential state. -/
theorem token_nonempty_and_preserved (α : Type) (t : Option String)
    (c : Credentials) (hc : Credentials.init t = Except.ok c) :
    c.token ≠ "" ∧
    (∀ ops : List (Op α), (Credentials.runOps c ops).token = c.token) ∧
    (∀ h o, (c.apply h o).1 = c) := by
  refine ⟨?_, fun ops => runOps_token c ops, fun h o => rfl⟩
  match t with
  | none => exact absurd hc (by simp [Credentials.init])
  | some s =>
    by_cases hs : s = ""
    · exact absurd hc (by simp [Credentials.init, hs])
    · simp [Credentials.init, hs] at hc
      rw [← hc]
      exact hs

/-- Witness for C8 at a concrete input: the credential built from `"k1"` has
a non-empty token and keeps it across a refresh followed by an apply. -/
theorem token_nonempty_and_preserved_witness :
    (Credentials.mk "k1").token ≠ "" ∧
    (Credentials.runOps (Credentials.mk "k1")
        [Op.refreshOp (), Op.applyOp [] (some "NEW")]).token =
      (Credentials.mk "k1").token :=
  ⟨(token_nonempty_and_preserved Unit (some "k1") (Credentials.mk "k1") (by simp [Credentials.init])).1,
   (token_nonempty_and_preserved Unit (some "k1") (Credentials.mk "k1") (by simp [Credentials.init])).2.1
     [Op.refreshOp (), Op.applyOp [] (some "NEW")]⟩

/-- C9: `apply` is idempotent on the header mapping: applying with the same
override twice in succession yields the same final mapping as applying
once. -/
theorem apply_idempotent (c : Credentials) (h : Headers) (o : Option String) :
    (c.apply (c.apply h o).2 o).2 = (c.apply h o).2 :=
  setItem_idem h "x-goog-api-key" (pyOrStr o c.token)

/-- C10: the headers produced by `before_request` depend only on the stored
token and the input header mapping: two calls with equal tokens and equal
header mappings but arbitrary (even differently typed) request contexts,
methods and urls produce equal header mappings; the request context is a
parameter the definition never inspects. -/
theorem before_request_depends_only_on_token (α β : Type) (c c' : Credentials)
    (r : α) (r' : β) (m m' u u' : String) (h : Headers)
    (ht : c.token = c'.token) :
    (c.before_request r m u h).2 = (c'.before_request r' m' u' h).2 := by
  simp [Credentials.before_request, Credentials.apply, pyOrStr, ht]

/-- Witness for C10 at a concrete input: two calls on credentials with the
same token `"ABC"`, one with a unit request context and one with a numeric
one, produce the same headers. -/
theorem before_request_depends_only_on_token_witness :
    ((Credentials.mk "ABC").before_request () "GET" "https://a" []).2 =
      ((Credentials.mk "ABC").before_request (37 : Nat) "POST" "https://b" []).2 :=
  before_request_depends_only_on_token Unit Nat
    (Credentials.mk "ABC") (Credentials.mk "ABC")
    () (37 : Nat) "GET" "POST" "https://a" "https://b" [] rfl

end ApiKey
